import Mathlib

/-!
Shallow embedding of `multiplayerctl` (src/src/main.rs).

The program's durable state is a single cache file `currentplayer`; the live
player list is the line list of the backend's `playerctl -l` output.  We model
the cache file as a `Store`, the live list as a `List String`, and each
operation of the program as a pure function from these to a `ProcResult`
recording graceful errors (Rust `Err`) separately from panics (Rust
`panic!` / `expect`).  File-creation and write failures are not modelled; the
store transitions recorded are the ones the code performs on its success and
graceful-error paths.
-/

/-- State of the cache file `currentplayer`: absent, present with contents `v`,
or present but failing with an I/O error when opened or read. -/
inductive Store
  | absent
  | stored (v : String)
  | unreadable
  deriving DecidableEq, Repr

/-- Outcome of one operation: success, a graceful error returned as a
`Result::Err` (printed as a message by the caller), or a Rust panic
(process crash) with the panic message. -/
inductive ProcResult (α : Type)
  | ok (a : α)
  | err (msg : String)
  | panicked (msg : String)
  deriving DecidableEq, Repr

/-- What `switch` leaves behind on success: the new store contents and the
fact that the SIGUSR1 broadcast to peer instances runs. -/
structure SwitchOut where
  newStore : Store
  broadcast : Bool
  deriving DecidableEq, Repr

/-- Outcome of `init_if_empty_player`: the returned `Result`, whether
`write_all` ran, and the final store state. -/
structure InitOut where
  result : ProcResult Unit
  wrote : Bool
  store : Store
  deriving DecidableEq, Repr

/-- The contents the program reads from the store when the file exists and is
readable, or the empty string when the file is absent
(`String::new()` stays untouched when `file_path.exists()` is false). -/
def storeRead : Store → String
  | Store.stored v => v
  | _ => ""

/-- Embeds the `for (i, l) in all_player_lines.clone().enumerate()` scan of
`switch`: index of the first line equal to `current`, if any. -/
def firstMatchIdx (current : String) : List String → Option Nat
  | [] => none
  | l :: ls => if l = current then some 0 else (firstMatchIdx current ls).map (· + 1)

/-- Embeds the tail of `switch` after the policy match: `File::create`, the
empty-selection fallback reading `all_player_lines.next()` at iterator
position `pos`, and the final `write_all` plus SIGUSR1 broadcast. -/
def switchFinish (live : List String) (pos : Nat) (current : String) : ProcResult SwitchOut :=
  if current = "" then
    match live.get? pos with
    | none => ProcResult.panicked "No players found!"
    | some v => ProcResult.ok ⟨Store.stored v, true⟩
  else ProcResult.ok ⟨Store.stored current, true⟩

/-- Embeds the `None` (rotation) arm of the policy match in `switch`: find
the index `i` of the current player among the live lines and take
`.nth((i ± 1) % line_count)` from the un-advanced line iterator, which is the
element at that absolute index, leaving the iterator just past it
(`pos = k + 1`) for the fallback; when the current player is not found no
rotation occurs and the fallback runs with the iterator still at the
start. -/
def switchRotate (current : String) (live : List String) (previous : Bool) :
    ProcResult SwitchOut :=
  match firstMatchIdx current live with
  | none => switchFinish live 0 current
  | some i =>
    let k := if previous then (i + live.length - 1) % live.length
             else (i + 1) % live.length
    match live.get? k with
    | none => ProcResult.panicked "Cannot get indexed player."
    | some v => switchFinish live (k + 1) v

/-- Embeds the `Some(p)` arm of the policy match in `switch`: scan the live
lines for `p`, making it current on a match, then run the tail with the
iterator still at the start. -/
def switchNamed (current p : String) (live : List String) : ProcResult SwitchOut :=
  switchFinish live 0 (if live.contains p then p else current)

/-- Embeds `switch(cache_path, player, _next, previous)` (main.rs:294):
reads the cache file (graceful `Err` when it exists but cannot be read) and
dispatches on the policy. -/
def switch (store : Store) (live : List String) (player : Option String)
    (previous : Bool) : ProcResult SwitchOut :=
  match store with
  | Store.unreadable => ProcResult.err "Cannot open cache file"
  | _ =>
    match player with
    | some p => switchNamed (storeRead store) p live
    | none => switchRotate (storeRead store) live previous

/-- Embeds `init_if_empty_player` (main.rs:178): read the cache file if it
exists (graceful `Err` on I/O failure), query the live list, `File::create`
(truncating the file), blank the current player unless it matches a live
line, seed from the first live line when blank (graceful `Err`
"No players found!" when there is none), and write the result back. -/
def init_if_empty_player (store : Store) (live : List String) : InitOut :=
  match store with
  | Store.unreadable => ⟨ProcResult.err "Cannot open cache file", false, Store.unreadable⟩
  | _ =>
    let current := storeRead store
    let current := if live.contains current then current else ""
    if current = "" then
      match live with
      | [] => ⟨ProcResult.err "No players found!", false, Store.stored ""⟩
      | v :: _ => ⟨ProcResult.ok (), true, Store.stored v⟩
    else ⟨ProcResult.ok (), true, Store.stored current⟩

/-- Embeds `get_current_player` (main.rs:237): opens the cache file without
an existence check and panics on any failure, returning the contents
otherwise. -/
def get_current_player (store : Store) : ProcResult String :=
  match store with
  | Store.stored v => ProcResult.ok v
  | _ => ProcResult.panicked "Cannot open cache file"

/-- Embeds the `player` command (main.rs:639): read the current player and
print it. -/
def player_cmd (store : Store) : ProcResult String :=
  get_current_player store

/-- How `main` (main.rs:114) proceeds after `init_if_empty_player`: on `Err`
it prints the message and returns `Ok(())` (success exit status) without
dispatching any command; on `Ok` it dispatches the parsed command. -/
inductive MainOutcome
  | earlyExitOk (msg : String)
  | dispatch
  deriving DecidableEq, Repr

/-- Embeds the startup portion of `main`: run `init_if_empty_player` and
either stop early (printing the message, exiting without error status) or go
on to command dispatch. -/
def main_startup (store : Store) (live : List String) : MainOutcome :=
  match (init_if_empty_player store live).result with
  | ProcResult.err why => MainOutcome.earlyExitOk why
  | _ => MainOutcome.dispatch

/-- Observable actions of the follow-mode loops: spawning a `playerctl`
subprocess for a player, killing the child, relaying bytes to stdout, and
the 100ms sleep on a would-block read. -/
inductive PumpAction
  | spawned (p : String)
  | killedChild
  | relayed (s : String)
  | slept
  deriving DecidableEq, Repr

/-- Phase of the `metadata --follow` loop (main.rs:571): at the top of the
outer `loop` about to re-read the selection and respawn, or inside the inner
poll loop streaming from a child spawned for player `p`. -/
inductive PumpPhase
  | restarting
  | streaming (p : String)
  deriving DecidableEq, Repr

/-- State of the `metadata --follow` loop: current phase plus the
process-wide `CHANGE_SIGNAL_HANDLER` flag raised by SIGUSR1. -/
structure PumpState where
  phase : PumpPhase
  flag : Bool
  deriving DecidableEq, Repr

/-- What the non-blocking `libc::read` of a poll cycle would report: bytes
available, EAGAIN / EWOULDBLOCK, or another error. -/
inductive PumpEvent
  | dataAvail (bytes : String)
  | wouldBlock
  | readError
  deriving DecidableEq, Repr

/-- Embeds one step of the `metadata --follow` loop (main.rs:571). At the top
of the outer loop (`restarting`) it calls `get_current_player` and spawns the
child for that player. A poll cycle of the inner loop checks
`CHANGE_SIGNAL_HANDLER` before reading: when set it kills the child, clears
the flag and breaks back to the outer loop; otherwise it reads, relaying
bytes, sleeping 100ms on would-block, and panicking on any other read
error. -/
def metadata_follow_step (store : Store) (s : PumpState) (ev : PumpEvent) :
    ProcResult (PumpState × List PumpAction) :=
  match s.phase with
  | PumpPhase.restarting =>
    match get_current_player store with
    | ProcResult.ok sel => ProcResult.ok (⟨PumpPhase.streaming sel, s.flag⟩, [PumpAction.spawned sel])
    | ProcResult.err m => ProcResult.err m
    | ProcResult.panicked m => ProcResult.panicked m
  | PumpPhase.streaming _ =>
    if s.flag then
      ProcResult.ok (⟨PumpPhase.restarting, false⟩, [PumpAction.killedChild])
    else
      match ev with
      | PumpEvent.dataAvail b => ProcResult.ok (s, [PumpAction.relayed b])
      | PumpEvent.wouldBlock => ProcResult.ok (s, [PumpAction.slept])
      | PumpEvent.readError => ProcResult.panicked "Failed to read from stdout."

/-- What one blocking `read_line` of the `status --follow` loop reports: a
line (possibly empty at EOF) or a read failure. -/
inductive StatusEvent
  | line (s : String)
  | readFail
  deriving DecidableEq, Repr

/-- Embeds one iteration of the `status --follow` loop (main.rs:528): a
blocking `read_line` on the single spawned child followed by `print!`.
`flag` is the process-wide `CHANGE_SIGNAL_HANDLER`, in scope but never
consulted by this loop; `child` is the player the one child was spawned for,
never changed. -/
def status_follow_step (flag : Bool) (child : String) (ev : StatusEvent) :
    ProcResult (String × List PumpAction) :=
  match ev with
  | StatusEvent.line str => ProcResult.ok (child, [PumpAction.relayed str])
  | StatusEvent.readFail => ProcResult.panicked "Failed to read line."

/-- Iterates `status_follow_step` over a finite prefix of the read events,
accumulating the relayed output. -/
def status_follow_run (flag : Bool) (child : String) :
    List StatusEvent → ProcResult (String × List PumpAction)
  | [] => ProcResult.ok (child, [])
  | e :: es =>
    match status_follow_step flag child e with
    | ProcResult.ok (c, acts) =>
      match status_follow_run flag c es with
      | ProcResult.ok (c2, acts2) => ProcResult.ok (c2, acts ++ acts2)
      | ProcResult.err m => ProcResult.err m
      | ProcResult.panicked m => ProcResult.panicked m
    | ProcResult.err m => ProcResult.err m
    | ProcResult.panicked m => ProcResult.panicked m

/-- The enumerate-scan finds nothing when the sought value is absent. -/
theorem firstMatchIdx_of_not_mem (current : String) (l : List String) (h : current ∉ l) :
    firstMatchIdx current l = none := by
  induction l with
  | nil => rfl
  | cons a t ih =>
    have ha : a ≠ current := fun he => h (he ▸ List.mem_cons_self a t)
    have ht : current ∉ t := fun hm => h (List.mem_cons_of_mem a hm)
    simp [firstMatchIdx, ha, ih ht]

/-- On a duplicate-free list the enumerate-scan finds element `i` at index
`i`. -/
theorem firstMatchIdx_nodup_get (l : List String) (hnd : l.Nodup) (i : Nat)
    (h : i < l.length) : firstMatchIdx (l.get ⟨i, h⟩) l = some i := by
  induction l generalizing i with
  | nil => simp at h
  | cons a t ih =>
    cases i with
    | zero => simp [firstMatchIdx]
    | succ j =>
      have hj : j < t.length := by simpa using h
      have hne : a ≠ t.get ⟨j, hj⟩ := by
        intro he
        exact (List.nodup_cons.mp hnd).1 (he ▸ List.get_mem t j hj)
      have hstep : firstMatchIdx ((a :: t).get ⟨j + 1, h⟩) (a :: t)
          = (firstMatchIdx (t.get ⟨j, hj⟩) t).map (· + 1) := by
        show firstMatchIdx (t.get ⟨j, hj⟩) (a :: t) = _
        simp only [firstMatchIdx]
        rw [if_neg hne]
      rw [hstep, ih (List.nodup_cons.mp hnd).2 j hj]
      rfl

/-- Rotation core of `switch`: from selection `l[i]` on a duplicate-free list
of non-empty names, the new selection is `l[(i+1) % n]` for next and
`l[(i+n-1) % n]` for previous. -/
theorem switchRotate_found (l : List String) (i : Nat) (hi : i < l.length)
    (hnd : l.Nodup) (hne : "" ∉ l) (prev : Bool) :
    switchRotate (l.get ⟨i, hi⟩) l prev
      = ProcResult.ok ⟨Store.stored
          (l.getD ((if prev then i + l.length - 1 else i + 1) % l.length) ""), true⟩ := by
  have hn : 0 < l.length := Nat.lt_of_le_of_lt (Nat.zero_le i) hi
  have hk : (if prev then i + l.length - 1 else i + 1) % l.length < l.length :=
    Nat.mod_lt _ hn
  have hgk : l.getD ((if prev then i + l.length - 1 else i + 1) % l.length) ""
      = l.get ⟨_, hk⟩ := List.getD_eq_getElem l "" hk
  have hvne : l.get ⟨_, hk⟩ ≠ "" := by
    intro he
    exact hne (he ▸ List.get_mem l _ hk)
  rw [hgk]
  unfold switchRotate
  rw [firstMatchIdx_nodup_get l hnd i hi]
  cases prev with
  | false =>
    simp only [Bool.false_eq_true, if_false] at hk hvne ⊢
    rw [List.get?_eq_get hk]
    simp [switchFinish]
    intro he
    exact absurd he hvne
  | true =>
    simp only [if_true] at hk hvne ⊢
    rw [List.get?_eq_get hk]
    simp [switchFinish]
    intro he
    exact absurd he hvne

/-- C1: on a duplicate-free list of non-empty player names, switching Next
from selection `l[i]` selects `l[(i+1) % n]`, and switching Previous selects
`l[(i+n-1) % n]`; the arithmetic wraps by modulo. -/
theorem claim_C1 (l : List String) (i : Nat) (hi : i < l.length)
    (hnd : l.Nodup) (hne : "" ∉ l) :
    switch (Store.stored (l.getD i "")) l none false
      = ProcResult.ok ⟨Store.stored (l.getD ((i + 1) % l.length) ""), true⟩ ∧
    switch (Store.stored (l.getD i "")) l none true
      = ProcResult.ok ⟨Store.stored (l.getD ((i + l.length - 1) % l.length) ""), true⟩ := by
  have hgi : l.getD i "" = l.get ⟨i, hi⟩ := List.getD_eq_getElem l "" hi
  constructor
  · rw [hgi]
    show switchRotate (l.get ⟨i, hi⟩) l false = _
    simpa using switchRotate_found l i hi hnd hne false
  · rw [hgi]
    show switchRotate (l.get ⟨i, hi⟩) l true = _
    simpa using switchRotate_found l i hi hnd hne true

/-- Witness for C1 at `l = [a, b, c]`, `i = 2`: Next wraps from `c` to `a`,
Previous goes to `b`. -/
theorem claim_C1_witness :
    switch (Store.stored (["a", "b", "c"].getD 2 "")) ["a", "b", "c"] none false
      = ProcResult.ok ⟨Store.stored (["a", "b", "c"].getD ((2 + 1) % ["a", "b", "c"].length) ""), true⟩ ∧
    switch (Store.stored (["a", "b", "c"].getD 2 "")) ["a", "b", "c"] none true
      = ProcResult.ok ⟨Store.stored
          (["a", "b", "c"].getD ((2 + ["a", "b", "c"].length - 1) % ["a", "b", "c"].length) ""), true⟩ :=
  claim_C1 ["a", "b", "c"] 2 (by decide) (by decide) (by decide)

/-- C2: on a non-empty live list, when the persisted selection is absent or
not a live player, startup resolution yields the first live player, writes it
back, and succeeds. -/
theorem claim_C2 (h0 : String) (t : List String) (st : Store)
    (h : st = Store.absent ∨ ∃ s, st = Store.stored s ∧ s ∉ h0 :: t) :
    init_if_empty_player st (h0 :: t) = ⟨ProcResult.ok (), true, Store.stored h0⟩ := by
  rcases h with h | ⟨s, hst, hs⟩
  · subst h
    simp [init_if_empty_player, storeRead]
  · subst hst
    simp [init_if_empty_player, storeRead, List.contains, List.elem_eq_mem, hs]

/-- Witness for C2 at an absent store and live list `[a, b]`. -/
theorem claim_C2_witness :
    init_if_empty_player Store.absent ["a", "b"]
      = ⟨ProcResult.ok (), true, Store.stored "a"⟩ :=
  claim_C2 "a" ["b"] Store.absent (Or.inl rfl)

/-- C3 counterexample: with persisted selection `a` and live list `[a]` the
resolver returns `a` but still performs a write (`File::create` plus
`write_all` run unconditionally), contradicting the claimed absence of a
write-back. -/
theorem claim_C3_counterexample :
    ("a" : String) ∈ ["a"] ∧
    (init_if_empty_player (Store.stored "a") ["a"]).result = ProcResult.ok () ∧
    (init_if_empty_player (Store.stored "a") ["a"]).wrote = true := by
  decide

/-- C3 amended: a persisted selection that is a live player is returned
unchanged, but the store is rewritten with that same value (the write is not
skipped). -/
theorem claim_C3_amended (l : List String) (s : String) (hs : s ∈ l) (hne : s ≠ "") :
    init_if_empty_player (Store.stored s) l = ⟨ProcResult.ok (), true, Store.stored s⟩ := by
  simp [init_if_empty_player, storeRead, List.contains, List.elem_eq_mem, hs, hne]

/-- Witness for the amended C3 at persisted `a`, live `[a, b]`. -/
theorem claim_C3_amended_witness :
    init_if_empty_player (Store.stored "a") ["a", "b"]
      = ⟨ProcResult.ok (), true, Store.stored "a"⟩ :=
  claim_C3_amended ["a", "b"] "a" (by decide) (by decide)

/-- C4: with an empty live list at startup, resolution fails with the message
"No players found!", and `main` prints it and exits early with success status
without dispatching any command. -/
theorem claim_C4 (st : Store) (h : st ≠ Store.unreadable) :
    (init_if_empty_player st []).result = ProcResult.err "No players found!" ∧
    main_startup st [] = MainOutcome.earlyExitOk "No players found!" := by
  cases st with
  | absent => exact ⟨rfl, rfl⟩
  | stored v => exact ⟨rfl, rfl⟩
  | unreadable => exact absurd rfl h

/-- Witness for C4 at an absent store. -/
theorem claim_C4_witness :
    (init_if_empty_player Store.absent []).result = ProcResult.err "No players found!" ∧
    main_startup Store.absent [] = MainOutcome.earlyExitOk "No players found!" :=
  claim_C4 Store.absent (by decide)

/-- C5: switching by name selects `x` whenever `x` is a live player,
regardless of the prior selection; when `x` is not live, the prior selection
is kept and written back, with a success result (no error reported). -/
theorem claim_C5 (l : List String) (s x : String) (prev : Bool) :
    (x ∈ l → "" ∉ l →
      switch (Store.stored s) l (some x) prev = ProcResult.ok ⟨Store.stored x, true⟩) ∧
    (x ∉ l → s ≠ "" →
      switch (Store.stored s) l (some x) prev = ProcResult.ok ⟨Store.stored s, true⟩) := by
  constructor
  · intro hx hne
    have hxne : x ≠ "" := fun he => hne (he ▸ hx)
    show switchNamed s x l = _
    simp [switchNamed, switchFinish, List.contains, List.elem_eq_mem, hx, hxne]
  · intro hx hs
    show switchNamed s x l = _
    simp [switchNamed, switchFinish, List.contains, List.elem_eq_mem, hx, hs]

/-- Witness for C5: naming live `b` selects it; naming absent `zzz` keeps
`a`, silently succeeding. -/
theorem claim_C5_witness :
    switch (Store.stored "a") ["a", "b"] (some "b") false
      = ProcResult.ok ⟨Store.stored "b", true⟩ ∧
    switch (Store.stored "a") ["a", "b"] (some "zzz") false
      = ProcResult.ok ⟨Store.stored "a", true⟩ :=
  ⟨(claim_C5 ["a", "b"] "a" "b" false).1 (by decide) (by decide),
   (claim_C5 ["a", "b"] "a" "zzz" false).2 (by decide) (by decide)⟩

/-- C6 counterexample: with stale persisted `b` and live list `[a]`, switch
Next keeps `b` instead of falling back to the first live player `a`. -/
theorem claim_C6_counterexample :
    switch (Store.stored "b") ["a"] none false = ProcResult.ok ⟨Store.stored "b", true⟩ ∧
    Store.stored "b" ≠ Store.stored "a" := by
  decide

/-- C6 amended: on a non-empty live list with Next or Previous, an absent or
empty persisted selection yields the first live player; a non-empty stale
persisted value not in the list is kept and written back unchanged (the
first-element fallback does not apply to it). -/
theorem claim_C6_amended (h0 s : String) (t : List String) (prev : Bool) :
    (("" : String) ∉ h0 :: t →
      switch Store.absent (h0 :: t) none prev = ProcResult.ok ⟨Store.stored h0, true⟩ ∧
      switch (Store.stored "") (h0 :: t) none prev
        = ProcResult.ok ⟨Store.stored h0, true⟩) ∧
    (s ∉ h0 :: t → s ≠ "" →
      switch (Store.stored s) (h0 :: t) none prev
        = ProcResult.ok ⟨Store.stored s, true⟩) := by
  constructor
  · intro hne
    have h1 : switchRotate "" (h0 :: t) prev = ProcResult.ok ⟨Store.stored h0, true⟩ := by
      unfold switchRotate
      rw [firstMatchIdx_of_not_mem _ _ hne]
      simp [switchFinish]
    exact ⟨h1, h1⟩
  · intro hs hsne
    show switchRotate s (h0 :: t) prev = _
    unfold switchRotate
    rw [firstMatchIdx_of_not_mem _ _ hs]
    simp [switchFinish, hsne]

/-- Witness for the amended C6: absent store on `[a, b]` selects `a`; stale
`c` on `[a, b]` is kept. -/
theorem claim_C6_amended_witness :
    switch Store.absent ["a", "b"] none false = ProcResult.ok ⟨Store.stored "a", true⟩ ∧
    switch (Store.stored "c") ["a", "b"] none false
      = ProcResult.ok ⟨Store.stored "c", true⟩ :=
  ⟨((claim_C6_amended "a" "c" ["b"] false).1 (by decide)).1,
   (claim_C6_amended "a" "c" ["b"] false).2 (by decide) (by decide)⟩

/-- C7 counterexample: with an empty live list and stale persisted `a`,
switch succeeds (rewriting `a`) instead of failing with a no-players
error. -/
theorem claim_C7_counterexample :
    switch (Store.stored "a") [] none false = ProcResult.ok ⟨Store.stored "a", true⟩ ∧
    switch (Store.stored "a") [] none false ≠ ProcResult.err "No players found!" := by
  decide

/-- C7 amended: on an empty live list switch panics with "No players found!"
(a crash, not a graceful error) when the persisted selection is absent or
empty, and succeeds, rewriting the stale value, when the persisted selection
is non-empty. -/
theorem claim_C7_amended (p : Option String) (prev : Bool) (s : String) :
    switch Store.absent [] p prev = ProcResult.panicked "No players found!" ∧
    switch (Store.stored "") [] p prev = ProcResult.panicked "No players found!" ∧
    (s ≠ "" → switch (Store.stored s) [] p prev = ProcResult.ok ⟨Store.stored s, true⟩) := by
  refine ⟨?_, ?_, ?_⟩
  · cases p <;> rfl
  · cases p <;> rfl
  · intro hs
    cases p <;>
      simp [switch, switchRotate, switchNamed, firstMatchIdx, switchFinish, storeRead, hs]

/-- Witness for the amended C7: empty live list with absent store panics;
with stale `a` it succeeds. -/
theorem claim_C7_amended_witness :
    switch Store.absent [] none false = ProcResult.panicked "No players found!" ∧
    switch (Store.stored "a") [] none false = ProcResult.ok ⟨Store.stored "a", true⟩ :=
  ⟨(claim_C7_amended none false "a").1, (claim_C7_amended none false "a").2.2 (by decide)⟩

/-- C8: in the metadata follow loop, a poll cycle with the notification flag
set kills the child, clears the flag and returns to the outer loop without
reading, whatever the read would have reported; the outer loop then re-reads
the selection from the store and spawns the child for that fresh value. -/
theorem claim_C8 (store : Store) (sel : String) (s : PumpState) (ev ev2 : PumpEvent)
    (p : String) (hp : s.phase = PumpPhase.streaming p) (hf : s.flag = true) :
    metadata_follow_step store s ev
      = ProcResult.ok (⟨PumpPhase.restarting, false⟩, [PumpAction.killedChild]) ∧
    metadata_follow_step (Store.stored sel) ⟨PumpPhase.restarting, false⟩ ev2
      = ProcResult.ok (⟨PumpPhase.streaming sel, false⟩, [PumpAction.spawned sel]) := by
  obtain ⟨ph, fl⟩ := s
  simp only at hp hf
  subst hp
  subst hf
  exact ⟨rfl, rfl⟩

/-- Witness for C8: streaming `a` with the flag set kills the child; the
restart step spawns for the store's fresh value `b`. -/
theorem claim_C8_witness :
    metadata_follow_step (Store.stored "b") ⟨PumpPhase.streaming "a", true⟩
        (PumpEvent.dataAvail "x")
      = ProcResult.ok (⟨PumpPhase.restarting, false⟩, [PumpAction.killedChild]) ∧
    metadata_follow_step (Store.stored "b") ⟨PumpPhase.restarting, false⟩
        PumpEvent.wouldBlock
      = ProcResult.ok (⟨PumpPhase.streaming "b", false⟩, [PumpAction.spawned "b"]) :=
  claim_C8 (Store.stored "b") "b" ⟨PumpPhase.streaming "a", true⟩
    (PumpEvent.dataAvail "x") PumpEvent.wouldBlock "a" rfl rfl

/-- C9 counterexample: the `player` command reads the current selection via
`get_current_player` and panics (crashes) when the store cannot be opened,
instead of aborting gracefully. -/
theorem claim_C9_counterexample :
    player_cmd Store.unreadable = ProcResult.panicked "Cannot open cache file" := rfl

/-- C9 amended: a store open failure is reported as a graceful error by
`switch` and by startup resolution, but `get_current_player` — used by every
other selection-reading command — panics on it. -/
theorem claim_C9_amended (l : List String) (p : Option String) (prev : Bool) :
    switch Store.unreadable l p prev = ProcResult.err "Cannot open cache file" ∧
    (init_if_empty_player Store.unreadable l).result
      = ProcResult.err "Cannot open cache file" ∧
    get_current_player Store.unreadable = ProcResult.panicked "Cannot open cache file" :=
  ⟨rfl, rfl, rfl⟩

/-- The status follow loop relays every line read from its single child and
never changes which child it streams from. -/
theorem status_follow_run_lines (flag : Bool) (c : String) (lines : List String) :
    status_follow_run flag c (lines.map StatusEvent.line)
      = ProcResult.ok (c, lines.map PumpAction.relayed) := by
  induction lines with
  | nil => rfl
  | cons a t ih => simp [status_follow_run, status_follow_step, ih]

/-- C10: the status follow loop relays lines from the one spawned child
forever — the child player never changes and no kill or respawn action ever
occurs — and its step function is independent of the cross-instance
notification flag, which it never consults. -/
theorem claim_C10 (f1 f2 : Bool) (c : String) (lines : List String) (ev : StatusEvent) :
    status_follow_run f1 c (lines.map StatusEvent.line)
      = ProcResult.ok (c, lines.map PumpAction.relayed) ∧
    status_follow_step f1 c ev = status_follow_step f2 c ev := by
  refine ⟨status_follow_run_lines f1 c lines, ?_⟩
  cases ev <;> rfl
